import Mathlib

/-!
Shallow embedding of `src/rough_draft.py`, a scraper for residential
property records from a county auditor's website, together with proofs of
the behavioural properties claimed of it.

The browser-automation collaborator (a Selenium driver) is modelled as an
abstract `Driver`: `find_element_by_id` returns `some text` when the element
lookup succeeds and `none` when the lookup raises; `click_ok` tells whether
clicking a found element succeeds.  Navigation (`driver.get`) and in-page
script execution (`driver.execute_script`) return no data the program reads
and are modelled as no-ops; the fixed `time.sleep` delays are real-time
behaviour with no functional content and are elided.

Each Python function keeps its source name.  `scrape_parcel_data`
additionally returns the ordered list of element ids it passed to
`find_element_by_id`, so that claims about which lookups are attempted can
be stated.
-/

/-- The heterogeneous scraped-record values are all strings read off the
page (`.text`), so every field is `Option String`; `none` is Python's
`None`.  Mirrors the `HousingData` namedtuple, fields in source order. -/
structure HousingData where
  parcelNumber : Option String
  address : Option String
  appraisedValue : Option String
  numStories : Option String
  yearBuilt : Option String
  numBedrooms : Option String
  numFullBaths : Option String
  numHalfBaths : Option String
  livingArea : Option String
  basement : Option String
  basementArea : Option String
deriving Repr, DecidableEq

/-- The eleven field names of the `HousingData` namedtuple, in source
order. -/
def field_names : List String :=
  ["parcelNumber", "address", "appraisedValue", "numStories", "yearBuilt",
   "numBedrooms", "numFullBaths", "numHalfBaths", "livingArea", "basement",
   "basementArea"]

/-- The named fields of a record, in schema order (what `pandas` sees when
it builds a `DataFrame` from the namedtuples). -/
def record_fields (r : HousingData) : List (String × Option String) :=
  [("parcelNumber", r.parcelNumber), ("address", r.address),
   ("appraisedValue", r.appraisedValue), ("numStories", r.numStories),
   ("yearBuilt", r.yearBuilt), ("numBedrooms", r.numBedrooms),
   ("numFullBaths", r.numFullBaths), ("numHalfBaths", r.numHalfBaths),
   ("livingArea", r.livingArea), ("basement", r.basement),
   ("basementArea", r.basementArea)]

/-- Abstract browser session.  `find_element_by_id` models
`driver.find_element_by_id(i).text`: `none` means the lookup raised,
`some t` means the element was found with text `t`.  `click_ok i` models
whether `.click()` on the element with id `i` succeeds. -/
structure Driver where
  find_element_by_id : String → Option String
  click_ok : String → Bool

/-- `id_fmt.format(a, b, c)` for the template
`"ContentPlaceHolder1_{a}_fvData{b}_{c}"` (braces shown for exposition). -/
def id_fmt (a b c : String) : String :=
  "ContentPlaceHolder1_" ++ a ++ "_fvData" ++ b ++ "_" ++ c

def address_id : String := id_fmt "Base" "Profile" "AddressLabel"

def valuation_id : String := id_fmt "Valuation" "Valuation" "Label1"

def num_stories_id : String := id_fmt "Residential" "Residential" "Label2"

def year_built_id : String := id_fmt "Residential" "Residential" "YearBuiltLabel"

def num_bed_id : String := id_fmt "Residential" "Residential" "NumberOfBedroomsLabel"

def num_full_bath_id : String := id_fmt "Residential" "Residential" "NumberOfFullBathsLabel"

def num_half_bath_id : String := id_fmt "Residential" "Residential" "NumberOfHalfBathsLabel"

def living_area_id : String := id_fmt "Residential" "Residential" "FinishedLivingAreaLabel"

def basement_id : String := id_fmt "Residential" "Residential" "Label1"

def basement_area_id : String := id_fmt "Residential" "Residential" "Label4"

/-- The element ids read inside the single `try` block on the
"Residential" tab, in the order the source attempts them. -/
def residential_ids : List String :=
  [num_stories_id, year_built_id, num_bed_id, num_full_bath_id,
   num_half_bath_id, living_area_id, basement_id, basement_area_id]

/-- Assembles the `HousingData` row exactly as the keyword-argument
construction at the end of `scrape_parcel_data` does. -/
def mk_row (parcel_number : String) (address valuation num_stories year_built
    num_bed num_full_bath num_half_bath living_area basement basement_area :
    Option String) : HousingData :=
  { parcelNumber := some parcel_number
    address := address
    appraisedValue := valuation
    numStories := num_stories
    yearBuilt := year_built
    numBedrooms := num_bed
    numFullBaths := num_full_bath
    numHalfBaths := num_half_bath
    livingArea := living_area
    basement := basement
    basementArea := basement_area }

/-- `scrape_parcel_data(row, driver)`.  Navigates to the parcel's detail
page, reads `address` on the Base tab and `valuation` on the Valuation tab
(each in its own `try`, `None` on failure), then reads the eight
residential labels inside one `try` block: execution of that block stops at
the first failing lookup and the `except` arm sets all eight residential
variables to `None`.  Returns the row together with the ordered list of
element ids passed to `find_element_by_id` (the attempt trace). -/
def scrape_parcel_data (driver : Driver) (parcel_number : String) :
    HousingData × List String :=
  let address := driver.find_element_by_id address_id
  let valuation := driver.find_element_by_id valuation_id
  match driver.find_element_by_id num_stories_id with
  | none =>
      (mk_row parcel_number address valuation none none none none none none
        none none,
       [address_id, valuation_id, num_stories_id])
  | some num_stories =>
  match driver.find_element_by_id year_built_id with
  | none =>
      (mk_row parcel_number address valuation none none none none none none
        none none,
       [address_id, valuation_id, num_stories_id, year_built_id])
  | some year_built =>
  match driver.find_element_by_id num_bed_id with
  | none =>
      (mk_row parcel_number address valuation none none none none none none
        none none,
       [address_id, valuation_id, num_stories_id, year_built_id, num_bed_id])
  | some num_bed =>
  match driver.find_element_by_id num_full_bath_id with
  | none =>
      (mk_row parcel_number address valuation none none none none none none
        none none,
       [address_id, valuation_id, num_stories_id, year_built_id, num_bed_id,
        num_full_bath_id])
  | some num_full_bath =>
  match driver.find_element_by_id num_half_bath_id with
  | none =>
      (mk_row parcel_number address valuation none none none none none none
        none none,
       [address_id, valuation_id, num_stories_id, year_built_id, num_bed_id,
        num_full_bath_id, num_half_bath_id])
  | some num_half_bath =>
  match driver.find_element_by_id living_area_id with
  | none =>
      (mk_row parcel_number address valuation none none none none none none
        none none,
       [address_id, valuation_id, num_stories_id, year_built_id, num_bed_id,
        num_full_bath_id, num_half_bath_id, living_area_id])
  | some living_area =>
  match driver.find_element_by_id basement_id with
  | none =>
      (mk_row parcel_number address valuation none none none none none none
        none none,
       [address_id, valuation_id, num_stories_id, year_built_id, num_bed_id,
        num_full_bath_id, num_half_bath_id, living_area_id, basement_id])
  | some basement =>
  match driver.find_element_by_id basement_area_id with
  | none =>
      (mk_row parcel_number address valuation none none none none none none
        none none,
       [address_id, valuation_id, num_stories_id, year_built_id, num_bed_id,
        num_full_bath_id, num_half_bath_id, living_area_id, basement_id,
        basement_area_id])
  | some basement_area =>
      (mk_row parcel_number address valuation (some num_stories)
        (some year_built) (some num_bed) (some num_full_bath)
        (some num_half_bath) (some living_area) (some basement)
        (some basement_area),
       [address_id, valuation_id, num_stories_id, year_built_id, num_bed_id,
        num_full_bath_id, num_half_bath_id, living_area_id, basement_id,
        basement_area_id])

/-- CSS id of the disclaimer-accept button in `prepare_webdriver`. -/
def button_css_id : String := "ContentPlaceHolder1_btnDisclaimerAccept"

/-- The body of the `try` in `prepare_webdriver`:
`driver.find_element_by_id(button_css_id).click()`.  Either the element
lookup raises, or the click on the found element raises, or the whole
statement succeeds. -/
def disclaimer_click (driver : Driver) : Except String Unit :=
  match driver.find_element_by_id button_css_id with
  | none => Except.error "Unable to locate element"
  | some _ =>
      if driver.click_ok button_css_id then Except.ok ()
      else Except.error "element click intercepted"

/-- Result of session initialization: the (still open) driver, plus the
error message printed by the `except` arm, when the disclaimer-dismissal
attempt raised. -/
structure PrepareResult where
  driver : Driver
  disclaimer_error : Option String

/-- `prepare_webdriver(url)`: launches the driver, navigates to the URL
(both modelled as already reflected in the `Driver` value), tries to click
the disclaimer button, catches and prints any exception from that attempt,
and returns the driver unconditionally. -/
def prepare_webdriver (driver : Driver) : PrepareResult :=
  match disclaimer_click driver with
  | Except.ok _ => { driver := driver, disclaimer_error := none }
  | Except.error err => { driver := driver, disclaimer_error := some err }

/-- Index of the first occurrence of `name` in a list of path segments:
Python's `tuple.index`, with `none` for the raised `ValueError`. -/
def list_index (name : String) : List String → Option Nat
  | [] => none
  | p :: rest =>
      if p = name then some 0 else (list_index name rest).map (· + 1)

/-- One step of `os.path.join` on POSIX: an absolute component resets the
result, otherwise a separator is inserted unless one is already there. -/
def join2 (a b : String) : String :=
  if b.startsWith "/" then b
  else if a = "" ∨ a.endsWith "/" then a ++ b
  else a ++ "/" ++ b

/-- `os.path.join(*parts)` on POSIX. -/
def path_join (parts : List String) : String := parts.foldl join2 ""

/-- `find_project_path(project_name)` as a function of the current working
directory's path components (`Path(os.getcwd()).parts`).  `none` models
`sys.exit()` after the `ValueError` diagnostic is printed; otherwise the
result is `os.path.join` of the components up to and including the first
occurrence of the project name. -/
def find_project_path (path_parts : List String) (project_name : String) :
    Option String :=
  match list_index project_name path_parts with
  | none => none
  | some i => some (path_join (path_parts.take (i + 1)))

/-- Fuel-driven core of Python's `range(start, stop, step)` for the
ascending case. -/
def range_from (fuel start stop step : Nat) : List Nat :=
  match fuel with
  | 0 => []
  | f + 1 =>
      if start < stop then start :: range_from f (start + step) stop step
      else []

/-- Python's `range(start, stop, step)` for `step > 0`: `stop - start` fuel
is enough because the cursor advances by at least one per element. -/
def py_range (start stop step : Nat) : List Nat :=
  range_from (stop - start) start stop step

/-- The window of the identifier list starting at `idx`:
`parcel_numbers.iloc[idx:idx+window_size]`. -/
def mini_batch (parcel_numbers : List String) (window_size idx : Nat) :
    List String :=
  (parcel_numbers.drop idx).take window_size

/-- The records of one window, in window order:
`mini_batch.apply(partial_scrape_parcel_data, axis=1)`. -/
def window_records (driver : Driver) (parcel_numbers : List String)
    (window_size idx : Nat) : List HousingData :=
  (mini_batch parcel_numbers window_size idx).map
    (fun pn => (scrape_parcel_data driver pn).1)

/-- The batch loop of `main`, abstracted over the windows: the sequence of
(window start offset, records of that window) pairs, in loop order.  The
source hard-codes `window_size = 10` (both the `range` step and the slice
width) and `start_offset = 2140` (the resume point of the reference run);
they are parameters here as in the spec's
`run(identifiers, session, window_size, start_offset, output_dir)`. -/
def run_batches (driver : Driver) (parcel_numbers : List String)
    (window_size start_offset : Nat) : List (Nat × List HousingData) :=
  (py_range start_offset parcel_numbers.length window_size).map
    (fun idx => (idx, window_records driver parcel_numbers window_size idx))

/-- `fmt_file_path.format(idx)` for `'housing_data_{idx}.csv'` (brace shown
for exposition). -/
def fmt_file_path (idx : Nat) : String :=
  "housing_data_" ++ toString idx ++ ".csv"

/-- One output file as written by
`pd.DataFrame(list(parcel_data)).to_csv(file_path, header=True,
index=False)`: its name, its header row, and its data rows. -/
structure OutputFile where
  name : String
  header : List String
  rows : List HousingData
deriving Repr, DecidableEq

/-- The header `pandas` writes for a list of `HousingData` namedtuples: the
field names of the tuples (taken here from the first row; an empty list
yields an empty frame with no columns). -/
def csv_header (rows : List HousingData) : List String :=
  match rows with
  | [] => []
  | r :: _ => (record_fields r).map Prod.fst

/-- The full batch loop of `main` including serialization: one output file
per processed window, named by the window's start offset. -/
def main_loop (driver : Driver) (parcel_numbers : List String)
    (window_size start_offset : Nat) : List OutputFile :=
  (py_range start_offset parcel_numbers.length window_size).map
    (fun idx =>
      let parcel_data := window_records driver parcel_numbers window_size idx
      { name := fmt_file_path idx
        header := csv_header parcel_data
        rows := parcel_data })

/-- All eight residential fields of a record are null. -/
def residential_all_none (r : HousingData) : Prop :=
  r.numStories = none ∧ r.yearBuilt = none ∧ r.numBedrooms = none ∧
  r.numFullBaths = none ∧ r.numHalfBaths = none ∧ r.livingArea = none ∧
  r.basement = none ∧ r.basementArea = none

/-- All eight residential fields of a record carry a value. -/
def residential_all_some (r : HousingData) : Prop :=
  r.numStories.isSome = true ∧ r.yearBuilt.isSome = true ∧
  r.numBedrooms.isSome = true ∧ r.numFullBaths.isSome = true ∧
  r.numHalfBaths.isSome = true ∧ r.livingArea.isSome = true ∧
  r.basement.isSome = true ∧ r.basementArea.isSome = true

/-- A deterministic stub collaborator on which every element lookup
succeeds, returning the element id itself as the element text, and every
click succeeds. -/
def echo_driver : Driver :=
  { find_element_by_id := fun i => some i
    click_ok := fun _ => true }

/-- A stub collaborator on which every element lookup raises and every
click fails. -/
def failing_driver : Driver :=
  { find_element_by_id := fun _ => none
    click_ok := fun _ => false }

/-- A stub collaborator on which exactly the `basement` residential lookup
raises. -/
def basement_fail_driver : Driver :=
  { find_element_by_id := fun i => if i = basement_id then none else some i
    click_ok := fun _ => true }

/-- A stub collaborator whose elements are all found but on which every
click raises. -/
def unclickable_driver : Driver :=
  { find_element_by_id := fun i => some i
    click_ok := fun _ => false }

/-- The twenty-three parcel identifiers of the end-to-end example. -/
def ids23 : List String :=
  ["001", "002", "003", "004", "005", "006", "007", "008", "009", "010",
   "011", "012", "013", "014", "015", "016", "017", "018", "019", "020",
   "021", "022", "023"]

/-! ### Helper lemmas about `py_range` -/

theorem range_from_zero_of_ge (fuel start stop step : Nat) (h : stop ≤ start) :
    range_from fuel start stop step = [] := by
  cases fuel with
  | zero => rfl
  | succ f => simp [range_from, Nat.not_lt.mpr h]

theorem range_from_fuel_irrel (step : Nat) (hstep : 0 < step) :
    ∀ fuel fuel' start stop, stop - start ≤ fuel → stop - start ≤ fuel' →
      range_from fuel start stop step = range_from fuel' start stop step := by
  intro fuel
  induction fuel with
  | zero =>
      intro fuel' start stop h _
      have hle : stop ≤ start := by omega
      rw [range_from_zero_of_ge _ _ _ _ hle, range_from_zero_of_ge _ _ _ _ hle]
  | succ f ih =>
      intro fuel' start stop h h'
      by_cases hlt : start < stop
      · obtain ⟨f', rfl⟩ : ∃ f'', fuel' = f'' + 1 := by
          cases fuel' with
          | zero => omega
          | succ k => exact ⟨k, rfl⟩
        simp only [range_from, if_pos hlt]
        have : stop - (start + step) ≤ f := by omega
        have : stop - (start + step) ≤ f' := by omega
        rw [ih f' (start + step) stop (by omega) (by omega)]
      · have hle : stop ≤ start := by omega
        rw [range_from_zero_of_ge _ _ _ _ hle, range_from_zero_of_ge _ _ _ _ hle]

theorem py_range_unfold (start stop step : Nat) (hstep : 0 < step) :
    py_range start stop step =
      if start < stop then start :: py_range (start + step) stop step
      else [] := by
  by_cases hlt : start < stop
  · have hfuel : stop - start = (stop - start - 1) + 1 := by omega
    rw [if_pos hlt]
    unfold py_range
    rw [hfuel]
    simp only [range_from, if_pos hlt]
    rw [range_from_fuel_irrel step hstep (stop - start - 1)
      (stop - (start + step)) (start + step) stop (by omega) (by omega)]
  · rw [if_neg hlt]
    unfold py_range
    exact range_from_zero_of_ge _ _ _ _ (by omega)

theorem py_range_mem (step : Nat) (hstep : 0 < step) (stop : Nat) :
    ∀ n start, stop - start ≤ n →
      ∀ i ∈ py_range start stop step, start ≤ i ∧ i < stop := by
  intro n
  induction n with
  | zero =>
      intro start h i hi
      rw [py_range_unfold _ _ _ hstep, if_neg (by omega)] at hi
      simp at hi
  | succ m ih =>
      intro start h i hi
      rw [py_range_unfold _ _ _ hstep] at hi
      by_cases hlt : start < stop
      · rw [if_pos hlt] at hi
        rcases List.mem_cons.mp hi with rfl | hi'
        · exact ⟨Nat.le_refl _, hlt⟩
        · have := ih (start + step) (by omega) i hi'
          exact ⟨by omega, this.2⟩
      · rw [if_neg hlt] at hi
        simp at hi

theorem py_range_cover (w : Nat) (hw : 0 < w) (ids : List String) :
    ∀ n start, ids.length - start ≤ n →
      ((py_range start ids.length w).map
        (fun idx => (ids.drop idx).take w)).flatten = ids.drop start := by
  intro n
  induction n with
  | zero =>
      intro start h
      rw [py_range_unfold _ _ _ hw, if_neg (by omega)]
      simp [List.drop_eq_nil_of_le (by omega : ids.length ≤ start)]
  | succ m ih =>
      intro start h
      by_cases hlt : start < ids.length
      · rw [py_range_unfold _ _ _ hw, if_pos hlt]
        simp only [List.map_cons, List.flatten_cons]
        rw [ih (start + w) (by omega)]
        rw [← List.drop_drop w start ids]
        exact List.take_append_drop w (ids.drop start)
      · rw [py_range_unfold _ _ _ hw, if_neg hlt]
        simp [List.drop_eq_nil_of_le (by omega : ids.length ≤ start)]

theorem py_range_filter_ge (w : Nat) (hw : 0 < w) (stop k : Nat) :
    ∀ n s, stop - s ≤ n → s ≤ k → w ∣ (k - s) →
      (py_range s stop w).filter (fun i => k ≤ i) = py_range k stop w := by
  intro n
  induction n with
  | zero =>
      intro s h hsk _
      rw [py_range_unfold s _ _ hw, if_neg (by omega)]
      rw [py_range_unfold k _ _ hw, if_neg (by omega)]
      rfl
  | succ m ih =>
      intro s h hsk hdvd
      by_cases hlt : s < stop
      · rw [py_range_unfold s _ _ hw, if_pos hlt]
        by_cases hks : k ≤ s
        · have hks' : s = k := by omega
          subst hks'
          rw [List.filter_cons_of_pos (by simp)]
          rw [List.filter_eq_self.mpr, py_range_unfold s _ _ hw, if_pos hlt]
          intro a ha
          have := py_range_mem w hw stop (stop - (s + w)) (s + w)
            (Nat.le_refl _) a ha
          simp
          omega
        · rw [List.filter_cons_of_neg (by simp; omega)]
          rcases hdvd with ⟨c, hc⟩
          have hcc : c ≠ 0 := by
            intro h0
            rw [h0, Nat.mul_zero] at hc
            omega
          obtain ⟨c', rfl⟩ := Nat.exists_eq_succ_of_ne_zero hcc
          have h2 : k - s = w * c' + w := by
            rw [hc, Nat.mul_succ]
          have hw_le : s + w ≤ k := by omega
          exact ih (s + w) (by omega) hw_le ⟨c', by omega⟩
      · rw [py_range_unfold s _ _ hw, if_neg hlt]
        rw [py_range_unfold k _ _ hw, if_neg (by omega)]
        rfl

/-! ### Helper lemmas about the extractor -/

theorem scrape_parcelNumber (d : Driver) (pn : String) :
    ((scrape_parcel_data d pn).1).parcelNumber = some pn := by
  unfold scrape_parcel_data
  repeat' split
  all_goals rfl

theorem scrape_address (d : Driver) (pn : String) :
    ((scrape_parcel_data d pn).1).address = d.find_element_by_id address_id := by
  unfold scrape_parcel_data
  repeat' split
  all_goals rfl

theorem scrape_appraisedValue (d : Driver) (pn : String) :
    ((scrape_parcel_data d pn).1).appraisedValue =
      d.find_element_by_id valuation_id := by
  unfold scrape_parcel_data
  repeat' split
  all_goals rfl

theorem scrape_trace_head (d : Driver) (pn : String) :
    ∃ rest, (scrape_parcel_data d pn).2 =
      address_id :: valuation_id :: num_stories_id :: rest := by
  unfold scrape_parcel_data
  repeat' split
  all_goals exact ⟨_, rfl⟩

/-! ### Helper lemmas about `list_index` -/

theorem list_index_eq_none (name : String) :
    ∀ l : List String, list_index name l = none ↔ name ∉ l := by
  intro l
  induction l with
  | nil => simp [list_index]
  | cons p rest ih =>
      by_cases hp : p = name
      · simp [list_index, hp]
      · simp only [list_index, if_neg hp, Option.map_eq_none', ih,
          List.mem_cons]
        constructor
        · intro hn hmem
          rcases hmem with h1 | h2
          · exact hp h1.symm
          · exact hn h2
        · intro hn hmem
          exact hn (Or.inr hmem)

theorem list_index_eq_some (name : String) :
    ∀ (l : List String) (i : Nat),
      list_index name l = some i ↔
        (l.get? i = some name ∧ name ∉ l.take i) := by
  intro l
  induction l with
  | nil => intro i; simp [list_index]
  | cons p rest ih =>
      intro i
      by_cases hp : p = name
      · subst hp
        cases i with
        | zero => simp [list_index]
        | succ j =>
            simp only [list_index, if_pos rfl, List.take_succ_cons]
            constructor
            · intro h
              exact absurd h (by simp)
            · intro ⟨_, hnot⟩
              exact absurd (List.mem_cons_self p _) hnot
      · cases i with
        | zero =>
            simp only [list_index, if_neg hp, List.get?_cons_zero,
              List.take_zero, List.not_mem_nil, not_false_iff, and_true,
              Option.some_inj]
            constructor
            · intro h
              rcases Option.map_eq_some'.mp h with ⟨j, _, hj⟩
              omega
            · intro h
              exact absurd h hp
        | succ j =>
            simp only [list_index, if_neg hp, List.get?_cons_succ,
              List.take_succ_cons, List.mem_cons]
            constructor
            · intro h
              rcases Option.map_eq_some'.mp h with ⟨m, hm, hmj⟩
              have hmm : m = j := by omega
              rw [hmm] at hm
              rcases (ih j).mp hm with ⟨hg, hnot⟩
              refine ⟨hg, ?_⟩
              intro hmem
              rcases hmem with h1 | h2
              · exact hp h1.symm
              · exact hnot h2
            · intro ⟨hg, hnot⟩
              refine Option.map_eq_some'.mpr ⟨j, ?_, rfl⟩
              exact (ih j).mpr ⟨hg, fun hmem => hnot (Or.inr hmem)⟩

theorem list_index_of_mem (name : String) (l : List String)
    (h : name ∈ l) : ∃ i, list_index name l = some i := by
  cases hli : list_index name l with
  | none => exact absurd ((list_index_eq_none name l).mp hli) (by simp [h])
  | some i => exact ⟨i, rfl⟩

/-- Dichotomy of the residential `try` block: either some residential
lookup failed, every residential field is null, and the attempt trace stops
right after the first failing lookup; or every residential lookup
succeeded and every residential field carries a value. -/
theorem scrape_residential_dichotomy (d : Driver) (pn : String) :
    (residential_all_none (scrape_parcel_data d pn).1 ∧
      (∃ id ∈ residential_ids, d.find_element_by_id id = none) ∧
      (scrape_parcel_data d pn).2 =
        [address_id, valuation_id] ++ residential_ids.take
          (residential_ids.findIdx
            (fun i => (d.find_element_by_id i).isNone) + 1)) ∨
    (residential_all_some (scrape_parcel_data d pn).1 ∧
      ∀ id ∈ residential_ids, d.find_element_by_id id ≠ none) := by
  rcases h1 : d.find_element_by_id num_stories_id with _ | v1
  · refine Or.inl ⟨?_, ⟨num_stories_id, by simp [residential_ids], h1⟩, ?_⟩
    · simp [scrape_parcel_data, h1, mk_row, residential_all_none]
    · simp [scrape_parcel_data, h1, residential_ids, List.findIdx_cons]
  rcases h2 : d.find_element_by_id year_built_id with _ | v2
  · refine Or.inl ⟨?_, ⟨year_built_id, by simp [residential_ids], h2⟩, ?_⟩
    · simp [scrape_parcel_data, h1, h2, mk_row, residential_all_none]
    · simp [scrape_parcel_data, h1, h2, residential_ids, List.findIdx_cons]
  rcases h3 : d.find_element_by_id num_bed_id with _ | v3
  · refine Or.inl ⟨?_, ⟨num_bed_id, by simp [residential_ids], h3⟩, ?_⟩
    · simp [scrape_parcel_data, h1, h2, h3, mk_row, residential_all_none]
    · simp [scrape_parcel_data, h1, h2, h3, residential_ids,
        List.findIdx_cons]
  rcases h4 : d.find_element_by_id num_full_bath_id with _ | v4
  · refine Or.inl ⟨?_, ⟨num_full_bath_id, by simp [residential_ids], h4⟩, ?_⟩
    · simp [scrape_parcel_data, h1, h2, h3, h4, mk_row, residential_all_none]
    · simp [scrape_parcel_data, h1, h2, h3, h4, residential_ids,
        List.findIdx_cons]
  rcases h5 : d.find_element_by_id num_half_bath_id with _ | v5
  · refine Or.inl ⟨?_, ⟨num_half_bath_id, by simp [residential_ids], h5⟩, ?_⟩
    · simp [scrape_parcel_data, h1, h2, h3, h4, h5, mk_row,
        residential_all_none]
    · simp [scrape_parcel_data, h1, h2, h3, h4, h5, residential_ids,
        List.findIdx_cons]
  rcases h6 : d.find_element_by_id living_area_id with _ | v6
  · refine Or.inl ⟨?_, ⟨living_area_id, by simp [residential_ids], h6⟩, ?_⟩
    · simp [scrape_parcel_data, h1, h2, h3, h4, h5, h6, mk_row,
        residential_all_none]
    · simp [scrape_parcel_data, h1, h2, h3, h4, h5, h6, residential_ids,
        List.findIdx_cons]
  rcases h7 : d.find_element_by_id basement_id with _ | v7
  · refine Or.inl ⟨?_, ⟨basement_id, by simp [residential_ids], h7⟩, ?_⟩
    · simp [scrape_parcel_data, h1, h2, h3, h4, h5, h6, h7, mk_row,
        residential_all_none]
    · simp [scrape_parcel_data, h1, h2, h3, h4, h5, h6, h7, residential_ids,
        List.findIdx_cons]
  rcases h8 : d.find_element_by_id basement_area_id with _ | v8
  · refine Or.inl ⟨?_, ⟨basement_area_id, by simp [residential_ids], h8⟩, ?_⟩
    · simp [scrape_parcel_data, h1, h2, h3, h4, h5, h6, h7, h8, mk_row,
        residential_all_none]
    · simp [scrape_parcel_data, h1, h2, h3, h4, h5, h6, h7, h8,
        residential_ids, List.findIdx_cons]
  refine Or.inr ⟨?_, ?_⟩
  · simp [scrape_parcel_data, h1, h2, h3, h4, h5, h6, h7, h8, mk_row,
      residential_all_some]
  · intro id hid
    simp only [residential_ids, List.mem_cons, List.not_mem_nil,
      or_false] at hid
    rcases hid with rfl | rfl | rfl | rfl | rfl | rfl | rfl | rfl <;>
      simp [h1, h2, h3, h4, h5, h6, h7, h8]

/-! ### Claim theorems -/

/-- C1: for every parcel identifier and every behaviour of the browser
collaborator's element lookups, `scrape_parcel_data` returns a record with
exactly the eleven named fields of the `HousingData` schema, in which
`parcelNumber` equals the input identifier and is never null; the
extractor is a total function of the collaborator's behaviour, so the
extraction as a whole never fails. -/
theorem extract_always_full_schema (d : Driver) (pn : String) :
    (record_fields (scrape_parcel_data d pn).1).map Prod.fst = field_names ∧
    field_names.length = 11 ∧
    (scrape_parcel_data d pn).1.parcelNumber = some pn :=
  ⟨rfl, rfl, scrape_parcelNumber d pn⟩

/-- C2, counterexample to the claim as stated: the residential batch read
inside the single `try` block consists of eight element lookups feeding
eight record fields, not seven. -/
theorem residential_batch_not_seven_fields :
    ¬ (residential_ids.length = 7) := by
  decide

/-- C2 (amended: the residential batch has eight lookups and eight fields,
not seven): if any one of the eight residential field lookups fails, all
eight residential fields of the resulting record are null, no residential
lookup after the (first) failing one is attempted — the attempt trace ends
right after it — and the batch has no partial-success outcome: every
record is all-null or all-populated on its residential fields. -/
theorem residential_batch_all_or_nothing (d : Driver) (pn : String)
    (h : ∃ id ∈ residential_ids, d.find_element_by_id id = none) :
    residential_all_none (scrape_parcel_data d pn).1 ∧
    (scrape_parcel_data d pn).2 =
      [address_id, valuation_id] ++ residential_ids.take
        (residential_ids.findIdx
          (fun i => (d.find_element_by_id i).isNone) + 1) ∧
    (∀ (d' : Driver) (pn' : String),
      residential_all_none (scrape_parcel_data d' pn').1 ∨
      residential_all_some (scrape_parcel_data d' pn').1) := by
  rcases scrape_residential_dichotomy d pn with ⟨hn, _, ht⟩ | ⟨_, hall⟩
  · refine ⟨hn, ht, ?_⟩
    intro d' pn'
    rcases scrape_residential_dichotomy d' pn' with ⟨hn', _, _⟩ | ⟨hs', _⟩
    · exact Or.inl hn'
    · exact Or.inr hs'
  · rcases h with ⟨id, hid, hnone⟩
    exact absurd hnone (hall id hid)

/-- Witness for the amended C2 at a concrete input: a stub collaborator on
which exactly the `basement` lookup (the seventh residential lookup)
raises leaves all eight residential fields null. -/
theorem residential_batch_all_or_nothing_witness :
    (∃ id ∈ residential_ids,
      basement_fail_driver.find_element_by_id id = none) ∧
    residential_all_none
      (scrape_parcel_data basement_fail_driver "4225270000").1 :=
  ⟨⟨basement_id, by simp [residential_ids], by simp [basement_fail_driver]⟩,
   (residential_batch_all_or_nothing basement_fail_driver "4225270000"
      ⟨basement_id, by simp [residential_ids],
        by simp [basement_fail_driver]⟩).1⟩

/-- C3: for every identifier list and window size `w > 0`, the
consecutive windows of size `w` starting at offset 0 (the last window
possibly shorter) cover every identifier exactly once and in original
order — concatenating the windows' records gives one record per
identifier, in list order, with matching parcel numbers; concretely, the
23 example identifiers with window size 10 and start offset 0 yield three
windows at offsets 0, 10, 20 holding 10, 10 and 3 records whose parcel
numbers match the source identifiers in order. -/
theorem batch_windows_cover :
    (∀ (d : Driver) (ids : List String) (w : Nat), 0 < w →
      ((run_batches d ids w 0).map Prod.snd).flatten =
          ids.map (fun pn => (scrape_parcel_data d pn).1) ∧
        (((run_batches d ids w 0).map Prod.snd).flatten).map
            HousingData.parcelNumber = ids.map some) ∧
    ((run_batches echo_driver ids23 10 0).map Prod.fst = [0, 10, 20] ∧
      (run_batches echo_driver ids23 10 0).map (fun p => p.2.length) =
        [10, 10, 3] ∧
      ((run_batches echo_driver ids23 10 0).map Prod.snd).flatten.map
          HousingData.parcelNumber = ids23.map some) := by
  constructor
  · intro d ids w hw
    have hmain :
        ((run_batches d ids w 0).map Prod.snd).flatten =
          ids.map (fun pn => (scrape_parcel_data d pn).1) := by
      unfold run_batches window_records mini_batch
      rw [List.map_map]
      have hcomp : (Prod.snd ∘ fun idx => (idx,
          ((ids.drop idx).take w).map
            (fun pn => (scrape_parcel_data d pn).1))) =
          (List.map (fun pn => (scrape_parcel_data d pn).1)) ∘
            (fun idx => (ids.drop idx).take w) := rfl
      rw [hcomp, ← List.map_map, ← List.map_flatten]
      rw [py_range_cover w hw ids ids.length 0 (by omega)]
      simp
    refine ⟨hmain, ?_⟩
    rw [hmain, List.map_map]
    apply List.map_congr_left
    intro pn _
    exact scrape_parcelNumber d pn
  · exact ⟨rfl, rfl, rfl⟩

/-- Witness for C3 at the end-to-end example input. -/
theorem batch_windows_cover_witness :
    0 < 10 ∧
    ((run_batches echo_driver ids23 10 0).map Prod.snd).flatten.map
        HousingData.parcelNumber = ids23.map some :=
  ⟨by decide, (batch_windows_cover.1 echo_driver ids23 10 (by decide)).2⟩

/-- C4, counterexample to the claim as stated: the claim quantifies over
*every* offset `k`, but for an offset that is not a window boundary the
resumed run does not reproduce the from-zero run's remaining windows.
With identifiers `["a","b","c"]`, window size 2 and start offset 1, the
resumed run produces one window at offset 1 holding the records of
`"b","c"`, while the windows from offset 1 onward of a run started at 0
are the single window at offset 2 holding the record of `"c"`. -/
theorem resume_any_offset_counterexample :
    ¬ (run_batches echo_driver ["a", "b", "c"] 2 1 =
        (run_batches echo_driver ["a", "b", "c"] 2 0).filter
          (fun p => 1 ≤ p.1)) := by
  decide

/-- C4 (amended: the start offset must be a window boundary, i.e. a
multiple of the window size): for every deterministic collaborator,
identifier list and window size `w > 0`, running the batch runner with
`start_offset = k`, `w ∣ k`, produces exactly the windows — identical
offsets, hence identical output files modulo nothing, and identical
records — that a run started at offset 0 would have produced from offset
`k` onward, provided the identifier list is unchanged. -/
theorem resume_aligned_offset (d : Driver) (ids : List String) (w k : Nat)
    (hw : 0 < w) (hk : w ∣ k) :
    run_batches d ids w k =
      (run_batches d ids w 0).filter (fun p => k ≤ p.1) := by
  unfold run_batches
  rw [List.filter_map]
  have hcomp : ((fun p : Nat × List HousingData => decide (k ≤ p.1)) ∘
      (fun idx => (idx, window_records d ids w idx))) =
      fun i => decide (k ≤ i) := rfl
  rw [hcomp]
  rw [py_range_filter_ge w hw ids.length k ids.length 0 (by omega)
    (by omega) (by simpa using hk)]

/-- Witness for the amended C4: resuming the end-to-end example at the
aligned offset 10 reproduces the from-zero run's windows at offsets 10
and 20. -/
theorem resume_aligned_offset_witness :
    (0 < 10 ∧ (10 : Nat) ∣ 10) ∧
    run_batches echo_driver ids23 10 10 =
      (run_batches echo_driver ids23 10 0).filter (fun p => 10 ≤ p.1) :=
  ⟨⟨by decide, by decide⟩,
   resume_aligned_offset echo_driver ids23 10 10 (by decide) (by decide)⟩

/-- C5: failure of the address element lookup sets the record's `address`
field to null, and failure of the valuation element lookup sets
`appraisedValue` to null; in either case extraction continues with no
retry and no abort — the valuation lookup and the residential batch are
still attempted (the attempt trace always proceeds past both reads) — and
processing of the current and subsequent identifiers is not interrupted:
every identifier of every window still yields exactly one record. -/
theorem field_failure_degrades_to_null (d : Driver) (pn : String) :
    (d.find_element_by_id address_id = none →
      (scrape_parcel_data d pn).1.address = none) ∧
    (d.find_element_by_id valuation_id = none →
      (scrape_parcel_data d pn).1.appraisedValue = none) ∧
    (∃ rest, (scrape_parcel_data d pn).2 =
      address_id :: valuation_id :: num_stories_id :: rest) ∧
    (∀ (ids : List String) (w idx : Nat),
      (window_records d ids w idx).length =
        (mini_batch ids w idx).length) := by
  refine ⟨?_, ?_, scrape_trace_head d pn, ?_⟩
  · intro h
    rw [scrape_address, h]
  · intro h
    rw [scrape_appraisedValue, h]
  · intro ids w idx
    unfold window_records
    simp

/-- Witness for C5: on a stub collaborator failing every lookup, both
fields degrade to null. -/
theorem field_failure_degrades_to_null_witness :
    failing_driver.find_element_by_id address_id = none ∧
    (scrape_parcel_data failing_driver "001").1.address = none ∧
    (scrape_parcel_data failing_driver "001").1.appraisedValue = none :=
  ⟨rfl, (field_failure_degrades_to_null failing_driver "001").1 rfl,
   (field_failure_degrades_to_null failing_driver "001").2.1 rfl⟩

/-- C6: if the disclaimer-dismissal element lookup fails during session
initialization, the failure is recorded by the `except` arm (printed) and
ignored, and the already-opened session is still returned rather than the
failure propagating. -/
theorem disclaimer_lookup_failure_nonfatal (d : Driver)
    (h : d.find_element_by_id button_css_id = none) :
    (prepare_webdriver d).driver = d ∧
    (prepare_webdriver d).disclaimer_error.isSome = true := by
  unfold prepare_webdriver disclaimer_click
  rw [h]
  exact ⟨rfl, rfl⟩

/-- Witness for C6: a stub collaborator that always fails element lookup
does not prevent session initialization from returning the session. -/
theorem disclaimer_lookup_failure_nonfatal_witness :
    failing_driver.find_element_by_id button_css_id = none ∧
    (prepare_webdriver failing_driver).driver = failing_driver :=
  ⟨rfl, (disclaimer_lookup_failure_nonfatal failing_driver rfl).1⟩

/-- C9: every failure of the disclaimer-dismissal statement — whether the
element lookup raised or the click on the found element raised — is
caught, its message recorded (printed), and the already-opened session is
still returned. -/
theorem disclaimer_any_failure_nonfatal (d : Driver) (e : String)
    (h : disclaimer_click d = Except.error e) :
    (prepare_webdriver d).driver = d ∧
    (prepare_webdriver d).disclaimer_error = some e := by
  unfold prepare_webdriver
  rw [h]
  exact ⟨rfl, rfl⟩

/-- Witness for C9: a stub on which the disclaimer button is found but
clicking it raises still yields the session. -/
theorem disclaimer_any_failure_nonfatal_witness :
    disclaimer_click unclickable_driver =
      Except.error "element click intercepted" ∧
    (prepare_webdriver unclickable_driver).driver = unclickable_driver ∧
    (prepare_webdriver unclickable_driver).disclaimer_error =
      some "element click intercepted" := by
  refine ⟨rfl, ?_⟩
  exact disclaimer_any_failure_nonfatal unclickable_driver _ rfl

/-- C7: if the anchor segment (the project name) is not among the current
working directory's path components, startup path resolution terminates
the program (`none` here models the printed diagnostic followed by
`sys.exit()`); otherwise it returns the joined absolute path up to and
including the (first occurrence of the) anchor segment. -/
theorem find_project_path_anchor (path_parts : List String)
    (project_name : String) :
    (project_name ∉ path_parts →
      find_project_path path_parts project_name = none) ∧
    (project_name ∈ path_parts →
      ∃ i, path_parts.get? i = some project_name ∧
        project_name ∉ path_parts.take i ∧
        find_project_path path_parts project_name =
          some (path_join (path_parts.take (i + 1)))) := by
  constructor
  · intro h
    unfold find_project_path
    rw [(list_index_eq_none project_name path_parts).mpr h]
  · intro h
    obtain ⟨i, hi⟩ := list_index_of_mem project_name path_parts h
    obtain ⟨hg, hnot⟩ :=
      (list_index_eq_some project_name path_parts i).mp hi
    refine ⟨i, hg, hnot, ?_⟩
    unfold find_project_path
    rw [hi]

/-- Witness for C7 on both branches: a path without the anchor segment is
fatal, and the docstring's example path resolves to the prefix ending at
the project folder. -/
theorem find_project_path_anchor_witness :
    find_project_path ["/", "home", "zach"] "zanesville-oh-housing-data" =
        none ∧
    ∃ i, (["/", "home", "zach", "Documents", "Project1", "src",
        "module1"] : List String).get? i = some "Project1" ∧
      "Project1" ∉ (["/", "home", "zach", "Documents", "Project1", "src",
        "module1"] : List String).take i ∧
      find_project_path
          ["/", "home", "zach", "Documents", "Project1", "src", "module1"]
          "Project1" =
        some (path_join ((["/", "home", "zach", "Documents", "Project1",
          "src", "module1"] : List String).take (i + 1))) :=
  ⟨(find_project_path_anchor ["/", "home", "zach"]
      "zanesville-oh-housing-data").1 (by decide),
   (find_project_path_anchor
      ["/", "home", "zach", "Documents", "Project1", "src", "module1"]
      "Project1").2 (by decide)⟩

/-- C10: when the anchor project-name segment occurs more than once among
the working directory's path components, path resolution truncates at the
first (outermost) occurrence of the segment, not the last. -/
theorem find_project_path_first_occurrence (path_parts : List String)
    (project_name : String) (i : Nat)
    (hget : path_parts.get? i = some project_name)
    (hfirst : project_name ∉ path_parts.take i)
    (hdup : project_name ∈ path_parts.drop (i + 1)) :
    find_project_path path_parts project_name =
      some (path_join (path_parts.take (i + 1))) := by
  have hidx : list_index project_name path_parts = some i :=
    (list_index_eq_some project_name path_parts i).mpr ⟨hget, hfirst⟩
  unfold find_project_path
  rw [hidx]

/-- Witness for C10: with the segment `p` at positions 2 and 4, resolution
stops after position 2. -/
theorem find_project_path_first_occurrence_witness :
    ("p" ∈ (["/", "home", "p", "src", "p"] : List String).drop 3) ∧
    find_project_path ["/", "home", "p", "src", "p"] "p" =
      some (path_join ((["/", "home", "p", "src", "p"] : List String).take
        (2 + 1))) :=
  ⟨by decide,
   find_project_path_first_occurrence ["/", "home", "p", "src", "p"] "p" 2
     (by decide) (by decide) (by decide)⟩

/-- C8: for every processed window the batch runner writes exactly one
output file, named deterministically by that window's starting offset
(`housing_data_<offset>.csv`), containing a header row of the eleven field
names in `HousingData` schema order followed by exactly that window's
records. -/
theorem one_output_file_per_window (d : Driver) (ids : List String)
    (w k : Nat) (hw : 0 < w) :
    main_loop d ids w k =
      (py_range k ids.length w).map (fun idx =>
        { name := fmt_file_path idx
          header := field_names
          rows := window_records d ids w idx }) := by
  unfold main_loop
  apply List.map_congr_left
  intro idx hidx
  have hmem := py_range_mem w hw ids.length (ids.length - k) k
    (Nat.le_refl _) idx hidx
  have hlen : (mini_batch ids w idx).length = min w (ids.length - idx) := by
    unfold mini_batch
    rw [List.length_take, List.length_drop]
  have hne : mini_batch ids w idx ≠ [] := by
    intro hnil
    rw [hnil] at hlen
    simp at hlen
    omega
  obtain ⟨x, xs, hxx⟩ := List.exists_cons_of_ne_nil hne
  have hhdr : csv_header (window_records d ids w idx) = field_names := by
    unfold window_records
    rw [hxx]
    rfl
  simp only [hhdr]

/-- Witness for C8 at the end-to-end example input. -/
theorem one_output_file_per_window_witness :
    0 < 10 ∧
    main_loop echo_driver ids23 10 0 =
      (py_range 0 ids23.length 10).map (fun idx =>
        { name := fmt_file_path idx
          header := field_names
          rows := window_records echo_driver ids23 10 idx }) :=
  ⟨by decide, one_output_file_per_window echo_driver ids23 10 0 (by decide)⟩
